import Mathlib

/-!
Verification of the traefik-hub-mcp handlers: the doctor diagnostic
pipeline, the database-port check, the middleware config editor and the
CORS origin updater, modelled as pure functions over explicit collaborator
outcomes.
-/

set_option maxHeartbeats 1000000

/-- Character-list test: the first list is a leading segment of the second. -/
def charsHasPre : List Char → List Char → Bool
  | [], _ => true
  | _ :: _, [] => false
  | a :: as, b :: bs => a == b && charsHasPre as bs

/-- Character-list test: the first list occurs contiguously in the second. -/
def charsHasSub (pat : List Char) : List Char → Bool
  | [] => pat.isEmpty
  | b :: bs => charsHasPre pat (b :: bs) || charsHasSub pat bs

/-- JavaScript String.prototype.includes: pat occurs as a substring of s. -/
def strIncl (s pat : String) : Bool :=
  charsHasSub pat.toList s.toList

/-- Lowercasing character by character (JavaScript toLowerCase on the
ASCII image names at hand). -/
def strToLower (s : String) : String :=
  String.mk (s.toList.map Char.toLower)

/-- Whitespace trim at both ends (JavaScript String.prototype.trim). -/
def strTrim (s : String) : String :=
  String.mk (((s.toList.dropWhile Char.isWhitespace).reverse.dropWhile
    Char.isWhitespace).reverse)

/-- Fixed database image substring patterns (DATABASE_IMAGE_PATTERNS). -/
def DATABASE_IMAGE_PATTERNS : List String :=
  ["postgres", "postgresql", "mysql", "mariadb",
   "mongo", "mongodb", "redis", "memcached",
   "cassandra", "couchdb", "influxdb", "elasticsearch",
   "mssql", "sqlserver"]

/-- isDatabaseImage: lowercased image name contains one of the patterns. -/
def isDatabaseImage (image : String) : Bool :=
  let lowerImage := strToLower image
  DATABASE_IMAGE_PATTERNS.any (fun pat => strIncl lowerImage pat)

/-- isLocalhostOnly: the bind address is loopback or empty. -/
def isLocalhostOnly (ip : String) : Bool :=
  ip == "127.0.0.1" || ip == "::1" || ip == "localhost" || ip == ""

/-- One published port record of a container (IP, PrivatePort, PublicPort). -/
structure PortEntry where
  IP : String
  PrivatePort : Nat
  PublicPort : Option Nat
deriving DecidableEq

/-- ContainerPortInfo: input record of checkDatabasePorts. -/
structure ContainerPortInfo where
  name : String
  image : String
  ports : List PortEntry
deriving DecidableEq

/-- The filter the source applies to ports: PublicPort truthy (present and
nonzero, mirroring the JavaScript truthiness of `p.PublicPort`) and the
bind address not localhost-only. -/
def exposedPortB (p : PortEntry) : Bool :=
  (p.PublicPort.getD 0 != 0) && !(isLocalhostOnly p.IP)

/-- Rendering of one exposed port as hostport:containerport. -/
def portPairStr (p : PortEntry) : String :=
  toString (p.PublicPort.getD 0) ++ ":" ++ toString p.PrivatePort

/-- The container loop of checkDatabasePorts, collecting one description
line per flagged database container. -/
def dbLoop : List ContainerPortInfo → List String
  | [] => []
  | c :: rest =>
    if !(isDatabaseImage c.image) then dbLoop rest
    else
      let exposedPorts := c.ports.filter exposedPortB
      if exposedPorts.length > 0 then
        (c.name ++ " (" ++ c.image ++ ") - ports: "
          ++ String.intercalate ", " (exposedPorts.map portPairStr)) :: dbLoop rest
      else dbLoop rest

/-- Result record of checkDatabasePorts. -/
structure DbCheckResult where
  exposedDatabases : List String
  allSafe : Bool
deriving DecidableEq

/-- checkDatabasePorts from the source: collect flagged containers and set
allSafe when none was flagged. -/
def checkDatabasePorts (containers : List ContainerPortInfo) : DbCheckResult :=
  let exposedDatabases := dbLoop containers
  ⟨exposedDatabases, exposedDatabases.length == 0⟩

/-- Spec-side predicate: a container is flagged exposed iff its image is a
database image and at least one port is published off localhost. -/
def specFlagged (c : ContainerPortInfo) : Bool :=
  isDatabaseImage c.image && c.ports.any exposedPortB

/-- Spec-side rendering of a flagged container. -/
def specListing (c : ContainerPortInfo) : String :=
  c.name ++ " (" ++ c.image ++ ") - ports: "
    ++ String.intercalate ", " ((c.ports.filter exposedPortB).map portPairStr)

/-- Tri-state probe verdict. -/
inductive CStatus where
  | ok
  | warn
  | fail
deriving DecidableEq

/-- One CheckResult of the doctor pipeline. -/
structure Check where
  name : String
  status : CStatus
  detail : Option String := none
  tip : Option String := none
deriving DecidableEq

/-- Outcome of one HTTP request: a response record or a thrown error with
its message string. -/
structure HttpResp where
  ok : Bool
  status : Nat
deriving DecidableEq

/-- Outcome of a fetch call: a response, or an exception message. -/
inductive FetchOutcome where
  | resp (r : HttpResp)
  | err (msg : String)
deriving DecidableEq

/-- Overview payload of the management API (optional totals). -/
structure Overview where
  routersTotal : Option Nat
  servicesTotal : Option Nat
deriving DecidableEq

/-- One container as returned by the container runtime listing. -/
structure DockerContainer where
  Names : List String
  Image : String
  Ports : Option (List PortEntry)
deriving DecidableEq

/-- All collaborator outcomes one doctor run consumes, one field per
external call the source makes. -/
structure DoctorEnv where
  pingOk : Bool
  networkOk : Bool
  containersList : Except Unit (List DockerContainer)
  apiFetch : FetchOutcome
  apiUrl : String
  port80 : FetchOutcome
  dashboard : FetchOutcome
  configDir : String
  configTraefikYml : Bool
  configMiddlewaresYml : Bool
  overviewApi : Except Unit Overview
  dbList : Except Unit (List DockerContainer)

/-- Probe 1: container runtime ping. -/
def probe1 (env : DoctorEnv) : Check :=
  if env.pingOk then { name := "Docker daemon", status := .ok }
  else { name := "Docker daemon", status := .fail,
         tip := some "Start Docker Desktop or docker daemon" }

/-- Probe 2: traefik-public network inspection. -/
def probe2 (env : DoctorEnv) : Check :=
  if env.networkOk then { name := "traefik-public network", status := .ok }
  else { name := "traefik-public network", status := .fail,
         tip := some "Run: docker network create traefik-public" }

/-- Probe 3: find a running Traefik container by name or image substring. -/
def probe3 (env : DoctorEnv) : Check :=
  match env.containersList with
  | .ok containers =>
    match containers.find? (fun c =>
        c.Names.any (fun n => strIncl n "traefik") || strIncl c.Image "traefik") with
    | some tc => { name := "Traefik container", status := .ok, detail := tc.Names.head? }
    | none => { name := "Traefik container", status := .fail,
                tip := some "Run: cd traefik-hub && docker compose up -d" }
  | .error _ => { name := "Traefik container", status := .fail,
                  tip := some "Could not list containers" }

/-- Probe 4: management API overview fetch. -/
def probe4 (env : DoctorEnv) : Check :=
  match env.apiFetch with
  | .resp r =>
    if r.ok then { name := "Traefik API", status := .ok, detail := some env.apiUrl }
    else { name := "Traefik API", status := .fail,
           detail := some ("HTTP " ++ toString r.status) }
  | .err _ => { name := "Traefik API", status := .fail,
                tip := some ("API not responding at " ++ env.apiUrl) }

/-- Probe 5: bare request to port 80; any response is ok, a thrown error is
fail only when its message contains ECONNREFUSED. -/
def port80Probe (o : FetchOutcome) : Check :=
  match o with
  | .resp r => { name := "Port 80", status := .ok,
                 detail := some ("HTTP " ++ toString r.status) }
  | .err msg =>
    if strIncl msg "ECONNREFUSED" then
      { name := "Port 80", status := .fail,
        tip := some "Port 80 not listening - Traefik may not be running" }
    else
      { name := "Port 80", status := .ok,
        detail := some "Listening (connection reset/timeout is ok)" }

/-- Probe 6: dashboard request; ok when the response is successful or has
status 200, fail with the status code otherwise, fail with a tip on a
thrown request error. -/
def dashboardProbe (o : FetchOutcome) : Check :=
  match o with
  | .resp r =>
    if r.ok || r.status == 200 then
      { name := "Dashboard (traefik.localhost)", status := .ok }
    else
      { name := "Dashboard (traefik.localhost)", status := .fail,
        detail := some ("HTTP " ++ toString r.status) }
  | .err _ => { name := "Dashboard (traefik.localhost)", status := .fail,
                tip := some "Dashboard not accessible - check Traefik config" }

/-- Probe 7: read the two config files; ok only when both reads succeed. -/
def probe7 (env : DoctorEnv) : Check :=
  if env.configTraefikYml && env.configMiddlewaresYml then
    { name := "Config files", status := .ok, detail := some env.configDir }
  else
    { name := "Config files", status := .fail,
      tip := some ("Config not found at " ++ env.configDir) }

/-- Probe 8: overview endpoint through the API helper. -/
def probe8 (env : DoctorEnv) : Check :=
  match env.overviewApi with
  | .ok ov =>
    { name := "Active routes", status := .ok,
      detail := some (toString (ov.routersTotal.getD 0) ++ " routers, "
        ++ toString (ov.servicesTotal.getD 0) ++ " services") }
  | .error _ => { name := "Active routes", status := .fail,
                  tip := some "Could not fetch from Traefik API" }

/-- Name extraction for probe 9, mirroring the source expression
Names[0]?.replace of a leading slash, defaulting to unknown. -/
def jsContainerName (names : List String) : String :=
  match names.head? with
  | none => "unknown"
  | some n =>
    let cs := match n.toList with
      | c :: rest => if c == '/' then rest else c :: rest
      | [] => []
    if cs.isEmpty then "unknown" else String.mk cs

/-- Mapping a listed container to the ContainerPortInfo record probe 9
builds. -/
def toPortInfo (c : DockerContainer) : ContainerPortInfo :=
  { name := jsContainerName c.Names, image := c.Image, ports := c.Ports.getD [] }

/-- Probe 9 body once the container listing succeeded: warn when databases
are exposed, ok otherwise. -/
def dbProbe (containers : List DockerContainer) : Check :=
  let containerInfo := containers.map toPortInfo
  let dbCheck := checkDatabasePorts containerInfo
  if !dbCheck.allSafe then
    { name := "Database ports", status := .warn,
      detail := some (toString dbCheck.exposedDatabases.length
        ++ " database(s) with exposed ports"),
      tip := some "Consider removing host port mappings. Use `docker compose exec` instead." }
  else
    { name := "Database ports", status := .ok,
      detail := some "No databases with exposed host ports" }

/-- The whole check sequence of handleDoctor: probes 1 to 8 always record a
result; probe 9 records one only when the container listing succeeds. -/
def runDoctorChecks (env : DoctorEnv) : List Check :=
  [probe1 env, probe2 env, probe3 env, probe4 env,
   port80Probe env.port80, dashboardProbe env.dashboard, probe7 env, probe8 env]
  ++ (match env.dbList with
      | .ok cs => [dbProbe cs]
      | .error _ => [])

/-- Status glyph used by the report renderer. -/
def statusIcon : CStatus → String
  | .ok => "✓"
  | .warn => "⚠"
  | .fail => "✗"

/-- Rendered check line before any tip suffix. -/
def renderCheckBase (c : Check) : String :=
  let line := statusIcon c.status ++ " **" ++ c.name ++ "**"
  match c.detail with
  | some d => line ++ " - " ++ d
  | none => line

/-- Rendered check line: a warn or fail result carrying a tip gets the
indented tip suffix on the following line. -/
def renderCheckLine (c : Check) : String :=
  match c.status, c.tip with
  | .fail, some t => renderCheckBase c ++ "\n  └─ Tip: " ++ t
  | .warn, some t => renderCheckBase c ++ "\n  └─ Tip: " ++ t
  | _, _ => renderCheckBase c

/-- One step of the aggregation loop flags (allOk, hasWarnings). -/
def doctorFlagStep (f : Bool × Bool) (c : Check) : Bool × Bool :=
  match c.status with
  | .fail => (false, f.2)
  | .warn => (f.1, true)
  | .ok => f

/-- The (allOk, hasWarnings) flags the rendering loop accumulates. -/
def doctorFlags (checks : List Check) : Bool × Bool :=
  checks.foldl doctorFlagStep (true, false)

/-- Closing line of the report, chosen from the loop flags. -/
def doctorClosing (checks : List Check) : String :=
  let f := doctorFlags checks
  if !f.1 then "**Some checks failed.** See tips above."
  else if f.2 then "**All checks passed with warnings.** See tips above."
  else "**All checks passed!**"

/-- Rendered report lines: header, one line per check, a blank line and the
closing line. -/
def renderDoctor (checks : List Check) : List String :=
  ("# Traefik Stack Health Check\n" :: checks.map renderCheckLine)
    ++ ["", doctorClosing checks]

/-- handleDoctor: run all probes and join the rendered report. -/
def handleDoctor (env : DoctorEnv) : String :=
  String.intercalate "\n" (renderDoctor (runDoctorChecks env))

/-- Spec-side boolean: some check failed. -/
def anyFailB (checks : List Check) : Bool :=
  checks.any (fun c => decide (c.status = CStatus.fail))

/-- Spec-side boolean: some check warned. -/
def anyWarnB (checks : List Check) : Bool :=
  checks.any (fun c => decide (c.status = CStatus.warn))

/-- Spec-side overall verdict of a report. -/
def overallVerdict (checks : List Check) : CStatus :=
  if anyFailB checks then .fail
  else if anyWarnB checks then .warn
  else .ok

/-- YAML value of one entry under http.middlewares: the null value, an
entry of the shape the editor writes, or some other non-null mapping kept
opaque. -/
inductive Yv where
  | nullv
  | entry (mtype : String) (cfg : String)
  | objv (s : String)
deriving DecidableEq

/-- JavaScript truthiness of a middleware value: only null is falsy. -/
def yvTruthy : Yv → Bool
  | .nullv => false
  | _ => true

/-- The http section of the parsed document: the middlewares map plus the
remaining keys, kept opaque and carried through the edit unchanged. -/
structure HttpSec where
  middlewares : Option (List (String × Yv))
  restH : List (String × String)
deriving DecidableEq

/-- The parsed YAML document: the http section plus the remaining
top-level keys, kept opaque and carried through the edit unchanged. -/
structure YamlDoc where
  http : Option HttpSec
  restD : List (String × String)
deriving DecidableEq

/-- Outcome of the injected YAML parser: a thrown parse error, a falsy
parse value which the source replaces by an empty object, or a document. -/
inductive ParseOutcome where
  | perror
  | pnull
  | pdoc (d : YamlDoc)
deriving DecidableEq

/-- Empty http section, as created by the source when absent. -/
def emptyHttpSec : HttpSec := ⟨none, []⟩

/-- Empty document, as used for a falsy parse result. -/
def emptyYamlDoc : YamlDoc := ⟨none, []⟩

/-- JavaScript keyed assignment on a record: replace the value in place
when the key is present, append the pair otherwise. -/
def setKey : List (String × Yv) → String → Yv → List (String × Yv)
  | [], k, v => [(k, v)]
  | p :: rest, k, v => if k == p.1 then (k, v) :: rest else p :: setKey rest k v

/-- The middlewares map of a document after the source fills in missing
structure with empty objects. -/
def mwsOf (d : YamlDoc) : List (String × Yv) :=
  (d.http.getD emptyHttpSec).middlewares.getD []

/-- Result record of addMiddlewareToConfig. -/
structure AddMwResult where
  success : Bool
  newContent : Option String
  error : Option String
  addedYaml : Option String
deriving DecidableEq

/-- Single-quote character, used in the duplicate-middleware message. -/
def squote : String := String.singleton (Char.ofNat 39)

/-- addMiddlewareToConfig from the source: parse, fill in structure, refuse
a truthy existing entry, otherwise assign the new entry and stringify. -/
def addMiddlewareToConfig (yamlContent name mtype config : String)
    (yamlParse : String → ParseOutcome)
    (yamlStringify : YamlDoc → String)
    (yamlStringifyEntry : String → String → String → String) : AddMwResult :=
  match yamlParse yamlContent with
  | .perror =>
    { success := false, newContent := none,
      error := some "Could not parse middlewares.yml", addedYaml := none }
  | pr =>
    let data : YamlDoc := match pr with | .pdoc d => d | _ => emptyYamlDoc
    let hsec := data.http.getD emptyHttpSec
    let mws := hsec.middlewares.getD []
    let truthyExisting := match mws.lookup name with
      | some v => yvTruthy v
      | none => false
    if truthyExisting then
      { success := false, newContent := none,
        error := some ("Middleware " ++ squote ++ name ++ squote
          ++ " already exists. Remove it first or use a different name."),
        addedYaml := none }
    else
      let newMws := setKey mws name (Yv.entry mtype config)
      let data2 : YamlDoc := { data with http := some { hsec with middlewares := some newMws } }
      let addedYaml := yamlStringifyEntry name mtype config
      { success := true, newContent := some (yamlStringify data2),
        error := none, addedYaml := some (strTrim addedYaml) }

/-- Collaborator outcomes and injected YAML functions one
handleAddMiddleware call consumes. -/
structure AddMwEnv where
  configDir : String
  readResult : Except Unit String
  writeOk : Bool
  yamlParse : String → ParseOutcome
  yamlStringify : YamlDoc → String
  yamlStringifyEntry : String → String → String → String

/-- Path of the dynamic middlewares file. -/
def middlewaresPath (configDir : String) : String :=
  configDir ++ "/dynamic/middlewares.yml"

/-- Success text of handleAddMiddleware. -/
def addMwSuccessText (name : String) (r : AddMwResult) : String :=
  "# Middleware Added\n\nAdded `" ++ name ++ "` to middlewares.yml:\n\n```yaml\n"
    ++ r.addedYaml.getD "" ++ "\n```\n\nTraefik will hot-reload this automatically.\n\n"
    ++ "**Usage in docker-compose labels:**\n```\ntraefik.http.routers.myapp.middlewares="
    ++ name ++ "@file\n```"

/-- handleAddMiddleware: read the file, edit, write back. The second
component records the contents successfully written to the file, so an
empty list means the configuration on disk is unchanged. -/
def handleAddMiddleware (env : AddMwEnv) (name mtype config : String) :
    String × List String :=
  match env.readResult with
  | .error _ => ("Error: Could not read " ++ middlewaresPath env.configDir, [])
  | .ok content =>
    let result := addMiddlewareToConfig content name mtype config
      env.yamlParse env.yamlStringify env.yamlStringifyEntry
    if result.success then
      if env.writeOk then
        (addMwSuccessText name result, [result.newContent.getD ""])
      else
        ("Error: Could not write to " ++ middlewaresPath env.configDir, [])
    else
      ("Error: " ++ result.error.getD "", [])

/-- Result record of updateCorsOrigins. -/
structure CorsUpdateResult where
  origins : List String
  changes : List String
deriving DecidableEq

/-- The add loop of updateCorsOrigins: append each origin not already
present and record the change. -/
def corsAddLoop : List String × List String → List String → List String × List String
  | s, [] => s
  | (origins, changes), o :: rest =>
    if origins.contains o then corsAddLoop (origins, changes) rest
    else corsAddLoop (origins ++ [o], changes ++ ["+ " ++ o]) rest

/-- The remove loop of updateCorsOrigins: splice out the first occurrence
of each present origin and record the change. -/
def corsRemoveLoop : List String × List String → List String → List String × List String
  | s, [] => s
  | (origins, changes), o :: rest =>
    if origins.contains o then corsRemoveLoop (origins.erase o, changes ++ ["- " ++ o]) rest
    else corsRemoveLoop (origins, changes) rest

/-- updateCorsOrigins from the source. -/
def updateCorsOrigins (currentOrigins : List String)
    (addList removeList : Option (List String)) : CorsUpdateResult :=
  let s0 := (currentOrigins, ([] : List String))
  let s1 := match addList with
    | some as => corsAddLoop s0 as
    | none => s0
  let s2 := match removeList with
    | some rs => corsRemoveLoop s1 rs
    | none => s1
  ⟨s2.1, s2.2⟩

/-- A fully healthy environment, used to instantiate universally
quantified theorems. -/
def envHealthy : DoctorEnv :=
  { pingOk := true, networkOk := true,
    containersList := .ok [⟨["/traefik"], "traefik:v2.10", some []⟩],
    apiFetch := .resp ⟨true, 200⟩, apiUrl := "http://localhost:8080",
    port80 := .resp ⟨true, 200⟩, dashboard := .resp ⟨true, 200⟩,
    configDir := "/cfg", configTraefikYml := true, configMiddlewaresYml := true,
    overviewApi := .ok ⟨some 3, some 2⟩, dbList := .ok [] }

/-- An environment whose port-80 request throws a timeout error and whose
runtime ping fails. -/
def envTimeout : DoctorEnv :=
  { pingOk := false, networkOk := true,
    containersList := .ok [],
    apiFetch := .resp ⟨true, 200⟩, apiUrl := "http://localhost:8080",
    port80 := .err "Connect Timeout Error", dashboard := .resp ⟨true, 200⟩,
    configDir := "/cfg", configTraefikYml := true, configMiddlewaresYml := true,
    overviewApi := .ok ⟨some 1, some 2⟩, dbList := .ok [] }

/-- An environment whose dashboard request yields an unsuccessful response
with status 500 and whose database listing fails. -/
def envDash : DoctorEnv :=
  { pingOk := true, networkOk := true,
    containersList := .ok [],
    apiFetch := .resp ⟨true, 200⟩, apiUrl := "http://localhost:8080",
    port80 := .resp ⟨true, 200⟩, dashboard := .resp ⟨false, 500⟩,
    configDir := "/cfg", configTraefikYml := true, configMiddlewaresYml := true,
    overviewApi := .ok ⟨some 1, some 2⟩, dbList := .error () }

/-- A parser returning a document whose middlewares map binds the key m to
the YAML null value, as the real parser does for a key with no value. -/
def parseNullMw : String → ParseOutcome :=
  fun _ => ParseOutcome.pdoc
    { http := some { middlewares := some [("m", Yv.nullv)], restH := [] }, restD := [] }

/-- Opaque stand-in for the YAML document serializer. -/
def stubStringify : YamlDoc → String := fun _ => "doc"

/-- Opaque stand-in for the serializer of the added single entry. -/
def stubEntryStringify : String → String → String → String := fun _ _ _ => "entry"

/-- A concrete add-middleware environment whose file read succeeds and
whose parser yields an empty document. -/
def envAddMw : AddMwEnv :=
  { configDir := "/cfg", readResult := .ok "", writeOk := true,
    yamlParse := fun _ => ParseOutcome.pnull,
    yamlStringify := stubStringify,
    yamlStringifyEntry := stubEntryStringify }

theorem doctorFlags_foldl_eq (checks : List Check) :
    ∀ a b : Bool, checks.foldl doctorFlagStep (a, b)
      = (a && !anyFailB checks, b || anyWarnB checks) := by
  induction checks with
  | nil => intro a b; simp [anyFailB, anyWarnB]
  | cons c rest ih =>
    intro a b
    cases hc : c.status <;>
      simp [doctorFlagStep, hc, anyFailB, anyWarnB, List.any_cons, ih,
        Bool.and_assoc, Bool.or_assoc]

theorem doctorClosing_eq (checks : List Check) :
    doctorClosing checks =
      (if anyFailB checks then "**Some checks failed.** See tips above."
       else if anyWarnB checks then "**All checks passed with warnings.** See tips above."
       else "**All checks passed!**") := by
  simp [doctorClosing, doctorFlags, doctorFlags_foldl_eq]

theorem anyFailB_iff (checks : List Check) :
    anyFailB checks = true ↔ ∃ c ∈ checks, c.status = CStatus.fail := by
  simp [anyFailB, List.any_eq_true]

theorem anyWarnB_iff (checks : List Check) :
    anyWarnB checks = true ↔ ∃ c ∈ checks, c.status = CStatus.warn := by
  simp [anyWarnB, List.any_eq_true]

theorem probe1_name_eq (env : DoctorEnv) : (probe1 env).name = "Docker daemon" := by
  unfold probe1; split <;> rfl

theorem probe2_name_eq (env : DoctorEnv) : (probe2 env).name = "traefik-public network" := by
  unfold probe2; split <;> rfl

theorem probe3_name_eq (env : DoctorEnv) : (probe3 env).name = "Traefik container" := by
  unfold probe3
  split
  · split <;> rfl
  · rfl

theorem probe4_name_eq (env : DoctorEnv) : (probe4 env).name = "Traefik API" := by
  unfold probe4
  split
  · split <;> rfl
  · rfl

theorem port80Probe_name_eq (o : FetchOutcome) : (port80Probe o).name = "Port 80" := by
  unfold port80Probe
  split
  · rfl
  · split <;> rfl

theorem dashboardProbe_name_eq (o : FetchOutcome) :
    (dashboardProbe o).name = "Dashboard (traefik.localhost)" := by
  unfold dashboardProbe
  split
  · split <;> rfl
  · rfl

theorem probe7_name_eq (env : DoctorEnv) : (probe7 env).name = "Config files" := by
  unfold probe7; split <;> rfl

theorem probe8_name_eq (env : DoctorEnv) : (probe8 env).name = "Active routes" := by
  unfold probe8
  split <;> rfl

theorem dbProbe_name_eq (cs : List DockerContainer) : (dbProbe cs).name = "Database ports" := by
  simp only [dbProbe]
  split <;> rfl

theorem doctorNames_eq (env : DoctorEnv) :
    (runDoctorChecks env).map Check.name
      = ["Docker daemon", "traefik-public network", "Traefik container", "Traefik API",
         "Port 80", "Dashboard (traefik.localhost)", "Config files", "Active routes"]
        ++ (match env.dbList with
            | .ok _ => ["Database ports"]
            | .error _ => []) := by
  rcases h : env.dbList with e | cs <;>
    simp [runDoctorChecks, h, probe1_name_eq, probe2_name_eq, probe3_name_eq,
      probe4_name_eq, port80Probe_name_eq, dashboardProbe_name_eq, probe7_name_eq,
      probe8_name_eq, dbProbe_name_eq]

theorem filterLengthPos_iff_any {α : Type} (p : α → Bool) (l : List α) :
    0 < (l.filter p).length ↔ l.any p = true := by
  rw [List.length_pos, Ne, List.filter_eq_nil_iff, List.any_eq_true]
  push_neg
  constructor
  · rintro ⟨a, ha, hp⟩; exact ⟨a, ha, by simpa using hp⟩
  · rintro ⟨a, ha, hp⟩; exact ⟨a, ha, by simpa using hp⟩

theorem dbLoop_eq (cs : List ContainerPortInfo) :
    dbLoop cs = (cs.filter specFlagged).map specListing := by
  induction cs with
  | nil => rfl
  | cons c rest ih =>
    unfold dbLoop
    cases hdb : isDatabaseImage c.image with
    | false => simp [hdb, List.filter_cons, specFlagged, ih]
    | true =>
      by_cases hany : c.ports.any exposedPortB = true
      · have hlen : 0 < (c.ports.filter exposedPortB).length :=
          (filterLengthPos_iff_any _ _).mpr hany
        simp [hdb, hlen, List.filter_cons, specFlagged, hany, specListing, ih]
      · have hlen : ¬ 0 < (c.ports.filter exposedPortB).length := by
          rw [filterLengthPos_iff_any]; exact hany
        simp [hdb, hlen, List.filter_cons, specFlagged, hany, ih]

theorem setKey_append_of_lookup_none (l : List (String × Yv)) (k : String) (v : Yv)
    (h : l.lookup k = none) : setKey l k v = l ++ [(k, v)] := by
  induction l with
  | nil => rfl
  | cons p rest ih =>
    obtain ⟨k1, v1⟩ := p
    by_cases hk : (k == k1) = true
    · exfalso; rw [List.lookup, hk] at h; exact Option.noConfusion h
    · rw [List.lookup] at h
      rw [Bool.not_eq_true] at hk
      rw [hk] at h
      simp [setKey, hk, ih h]

theorem corsAddLoop_mem_iff (as : List String) :
    ∀ (origins changes : List String) (x : String),
      x ∈ (corsAddLoop (origins, changes) as).1 ↔ x ∈ origins ∨ x ∈ as := by
  induction as with
  | nil => intro origins changes x; simp [corsAddLoop]
  | cons o rest ih =>
    intro origins changes x
    by_cases h : origins.contains o = true
    · have ho : o ∈ origins := by simpa using h
      rw [corsAddLoop, if_pos h, ih]
      constructor
      · rintro (hx | hx)
        · exact Or.inl hx
        · exact Or.inr (List.mem_cons_of_mem _ hx)
      · rintro (hx | hx)
        · exact Or.inl hx
        · rcases List.mem_cons.mp hx with rfl | hx
          · exact Or.inl ho
          · exact Or.inr hx
    · rw [corsAddLoop, if_neg h, ih]
      simp [List.mem_append, List.mem_cons]
      tauto

theorem corsAddLoop_nodup (as : List String) :
    ∀ (origins changes : List String), origins.Nodup →
      (corsAddLoop (origins, changes) as).1.Nodup := by
  induction as with
  | nil => intro origins changes h; simpa [corsAddLoop] using h
  | cons o rest ih =>
    intro origins changes h
    by_cases hc : origins.contains o = true
    · rw [corsAddLoop, if_pos hc]; exact ih _ _ h
    · have ho : o ∉ origins := by simpa using hc
      rw [corsAddLoop, if_neg hc]
      refine ih _ _ ?_
      simp [List.nodup_append, h, ho]

theorem corsAddLoop_fix (as : List String) :
    ∀ (origins changes : List String), (∀ o ∈ as, o ∈ origins) →
      corsAddLoop (origins, changes) as = (origins, changes) := by
  induction as with
  | nil => intro origins changes _; rfl
  | cons o rest ih =>
    intro origins changes h
    have ho : origins.contains o = true := by
      simpa using h o (List.mem_cons_self o rest)
    rw [corsAddLoop, if_pos ho]
    exact ih _ _ (fun x hx => h x (List.mem_cons_of_mem _ hx))

theorem corsAddLoop_shape (as : List String) :
    ∀ (origins changes : List String),
      ∃ t, (corsAddLoop (origins, changes) as).1 = origins ++ t
        ∧ ∀ x ∈ t, x ∈ as ∧ x ∉ origins := by
  induction as with
  | nil => intro origins changes; exact ⟨[], by simp [corsAddLoop], by simp⟩
  | cons o rest ih =>
    intro origins changes
    by_cases h : origins.contains o = true
    · obtain ⟨t, ht, hp⟩ := ih origins changes
      refine ⟨t, by rw [corsAddLoop, if_pos h]; exact ht, fun x hx => ?_⟩
      exact ⟨List.mem_cons_of_mem _ (hp x hx).1, (hp x hx).2⟩
    · have ho : o ∉ origins := by simpa using h
      obtain ⟨t, ht, hp⟩ := ih (origins ++ [o]) (changes ++ ["+ " ++ o])
      refine ⟨o :: t, ?_, ?_⟩
      · rw [corsAddLoop, if_neg h, ht, List.append_assoc]; rfl
      · intro x hx
        rcases List.mem_cons.mp hx with rfl | hx
        · exact ⟨List.mem_cons_self _ _, ho⟩
        · refine ⟨List.mem_cons_of_mem _ (hp x hx).1, fun hxo => (hp x hx).2 ?_⟩
          exact List.mem_append_left _ hxo

/-- C1: for every combination of per-probe statuses, the overall verdict is
fail iff some result failed, warn iff none failed but some warned, ok iff
every result is ok; the closing line is the corresponding one of the three
report endings; and every warn or fail result carrying a tip renders with
the indented tip suffix after its line. -/
theorem doctor_verdict_spec (checks : List Check) :
    (overallVerdict checks = CStatus.fail ↔ ∃ c ∈ checks, c.status = CStatus.fail)
  ∧ (overallVerdict checks = CStatus.warn ↔
      ((¬ ∃ c ∈ checks, c.status = CStatus.fail) ∧ ∃ c ∈ checks, c.status = CStatus.warn))
  ∧ (overallVerdict checks = CStatus.ok ↔ ∀ c ∈ checks, c.status = CStatus.ok)
  ∧ (doctorClosing checks =
      (match overallVerdict checks with
       | CStatus.fail => "**Some checks failed.** See tips above."
       | CStatus.warn => "**All checks passed with warnings.** See tips above."
       | CStatus.ok => "**All checks passed!**"))
  ∧ (∀ c ∈ checks, ∀ t, c.tip = some t →
      (c.status = CStatus.warn ∨ c.status = CStatus.fail) →
      renderCheckLine c = renderCheckBase c ++ "\n  └─ Tip: " ++ t) := by
  have hall : (anyFailB checks = false ∧ anyWarnB checks = false)
      ↔ ∀ c ∈ checks, c.status = CStatus.ok := by
    constructor
    · rintro ⟨h1, h2⟩ c hc
      have n1 : ¬ c.status = CStatus.fail := by
        intro hf
        exact absurd ((anyFailB_iff checks).mpr ⟨c, hc, hf⟩) (by simp [h1])
      have n2 : ¬ c.status = CStatus.warn := by
        intro hw
        exact absurd ((anyWarnB_iff checks).mpr ⟨c, hc, hw⟩) (by simp [h2])
      cases h : c.status
      · rfl
      · exact absurd h n2
      · exact absurd h n1
    · intro h
      constructor
      · rw [← Bool.not_eq_true, anyFailB_iff]
        rintro ⟨c, hc, hf⟩
        rw [h c hc] at hf
        exact CStatus.noConfusion hf
      · rw [← Bool.not_eq_true, anyWarnB_iff]
        rintro ⟨c, hc, hw⟩
        rw [h c hc] at hw
        exact CStatus.noConfusion hw
  refine ⟨?_, ?_, ?_, ?_, ?_⟩
  · cases hA : anyFailB checks <;> cases hB : anyWarnB checks <;>
      simp [overallVerdict, hA, hB, ← anyFailB_iff, ← anyWarnB_iff]
  · cases hA : anyFailB checks <;> cases hB : anyWarnB checks <;>
      simp [overallVerdict, hA, hB, ← anyFailB_iff, ← anyWarnB_iff]
  · have hok : overallVerdict checks = CStatus.ok
        ↔ (anyFailB checks = false ∧ anyWarnB checks = false) := by
      unfold overallVerdict
      cases hA : anyFailB checks <;> cases hB : anyWarnB checks <;> simp [hA, hB]
    rw [hok, hall]
  · rw [doctorClosing_eq, overallVerdict]
    cases hA : anyFailB checks <;> cases hB : anyWarnB checks <;> simp [hA, hB]
  · intro c _ t ht hs
    rcases hs with h | h <;> simp [renderCheckLine, h, ht]

theorem doctor_verdict_spec_witness :
    overallVerdict [⟨"Docker daemon", CStatus.fail, none,
      some "Start Docker Desktop or docker daemon"⟩] = CStatus.fail :=
  (doctor_verdict_spec _).1.mpr
    ⟨⟨"Docker daemon", CStatus.fail, none, some "Start Docker Desktop or docker daemon"⟩,
     List.mem_singleton.mpr rfl, rfl⟩

/-- C2: the report names always follow probe declaration order; the report
length is 9 when the best-effort probe 9 recorded and 8 when it was
omitted; a failed runtime ping yields the fail result with the
start-the-runtime tip in first position; and the tail of the report does
not depend on the outcome of the ping, so probes 2 to 9 run and report
regardless. -/
theorem doctor_probe_order (env : DoctorEnv) :
    ((runDoctorChecks env).map Check.name
       = ["Docker daemon", "traefik-public network", "Traefik container", "Traefik API",
          "Port 80", "Dashboard (traefik.localhost)", "Config files", "Active routes"]
         ++ (match env.dbList with
             | .ok _ => ["Database ports"]
             | .error _ => []))
  ∧ ((runDoctorChecks env).length = (match env.dbList with
      | .ok _ => 9
      | .error _ => 8))
  ∧ (env.pingOk = false →
      (runDoctorChecks env).head? = some ⟨"Docker daemon", CStatus.fail,
        none, some "Start Docker Desktop or docker daemon"⟩)
  ∧ (∀ b : Bool, (runDoctorChecks { env with pingOk := b }).tail = (runDoctorChecks env).tail) := by
  refine ⟨doctorNames_eq env, ?_, ?_, ?_⟩
  · rcases h : env.dbList with e | cs <;> simp [runDoctorChecks, h]
  · intro h
    simp [runDoctorChecks, probe1, h]
  · intro b
    rfl

theorem doctor_probe_order_witness :
    (runDoctorChecks envTimeout).head? = some ⟨"Docker daemon", CStatus.fail,
      none, some "Start Docker Desktop or docker daemon"⟩ :=
  (doctor_probe_order envTimeout).2.2.1 rfl

/-- C4: the port-80 probe records ok with the status code on any response,
fail with the port-not-listening tip exactly when the thrown error message
mentions ECONNREFUSED, and ok with the listener note on every other error;
and the fifth entry of every report is this probe applied to the port-80
outcome. -/
theorem port80_spec :
    (∀ r : HttpResp, port80Probe (FetchOutcome.resp r)
        = { name := "Port 80", status := CStatus.ok,
            detail := some ("HTTP " ++ toString r.status), tip := none })
  ∧ (∀ msg, strIncl msg "ECONNREFUSED" = true →
      port80Probe (FetchOutcome.err msg)
        = { name := "Port 80", status := CStatus.fail, detail := none,
            tip := some "Port 80 not listening - Traefik may not be running" })
  ∧ (∀ msg, strIncl msg "ECONNREFUSED" = false →
      port80Probe (FetchOutcome.err msg)
        = { name := "Port 80", status := CStatus.ok,
            detail := some "Listening (connection reset/timeout is ok)", tip := none })
  ∧ (∀ msg, (port80Probe (FetchOutcome.err msg)).status = CStatus.fail
      ↔ strIncl msg "ECONNREFUSED" = true)
  ∧ (∀ env : DoctorEnv, (runDoctorChecks env)[4]? = some (port80Probe env.port80)) := by
  refine ⟨fun r => rfl, ?_, ?_, ?_, fun env => rfl⟩
  · intro msg h; simp [port80Probe, h]
  · intro msg h; simp [port80Probe, h]
  · intro msg
    by_cases h : strIncl msg "ECONNREFUSED" = true <;> simp [port80Probe, h]

theorem port80_spec_witness :
    port80Probe (FetchOutcome.err "connect ECONNREFUSED 127.0.0.1:80")
      = { name := "Port 80", status := CStatus.fail, detail := none,
          tip := some "Port 80 not listening - Traefik may not be running" } :=
  port80_spec.2.1 "connect ECONNREFUSED 127.0.0.1:80" (by decide)

/-- C6: the pipeline is a total function of the collaborator outcomes: for
every environment it returns the rendered report, which always consists of
the header, one line per recorded check, a blank line and one of the three
closing lines, with no error path out of the pipeline. -/
theorem doctor_total_report (env : DoctorEnv) :
    handleDoctor env = String.intercalate "\n" (renderDoctor (runDoctorChecks env))
  ∧ renderDoctor (runDoctorChecks env)
      = ("# Traefik Stack Health Check\n" :: (runDoctorChecks env).map renderCheckLine)
          ++ ["", doctorClosing (runDoctorChecks env)]
  ∧ (doctorClosing (runDoctorChecks env) = "**Some checks failed.** See tips above."
     ∨ doctorClosing (runDoctorChecks env) = "**All checks passed with warnings.** See tips above."
     ∨ doctorClosing (runDoctorChecks env) = "**All checks passed!**") := by
  refine ⟨rfl, rfl, ?_⟩
  rw [doctorClosing_eq]
  by_cases hA : anyFailB (runDoctorChecks env) = true <;>
    by_cases hB : anyWarnB (runDoctorChecks env) = true <;>
      simp [hA, hB]

/-- C8: the pipeline is deterministic: two runs over equal environments
produce reports with identical per-probe statuses. -/
theorem doctor_deterministic (e1 e2 : DoctorEnv) (h : e1 = e2) :
    (runDoctorChecks e1).map Check.status = (runDoctorChecks e2).map Check.status := by
  rw [h]

theorem doctor_deterministic_witness :
    (runDoctorChecks envHealthy).map Check.status
      = (runDoctorChecks envHealthy).map Check.status :=
  doctor_deterministic envHealthy envHealthy rfl

theorem allSafe_iff (containers : List ContainerPortInfo) :
    (checkDatabasePorts containers).allSafe = true
      ↔ ∀ c ∈ containers, specFlagged c = false := by
  simp [checkDatabasePorts, dbLoop_eq, List.length_eq_zero, List.map_eq_nil_iff,
    List.filter_eq_nil_iff, Bool.not_eq_true]

/-- C3: checkDatabasePorts lists exactly the containers whose image matches
a database pattern and which publish at least one port off localhost, each
rendered as name (image) - ports: hostport:containerport pairs; and the
doctor probe built on it records warn (never fail) exactly when some
container is flagged and ok otherwise. -/
theorem checkDatabasePorts_spec (containers : List ContainerPortInfo)
    (dcs : List DockerContainer) :
    ((checkDatabasePorts containers).exposedDatabases
       = (containers.filter specFlagged).map specListing)
  ∧ (∀ c : ContainerPortInfo, specFlagged c = true ↔
      (isDatabaseImage c.image = true
        ∧ ∃ p ∈ c.ports, ¬ p.PublicPort.getD 0 = 0 ∧ isLocalhostOnly p.IP = false))
  ∧ ((checkDatabasePorts containers).allSafe = true
      ↔ ∀ c ∈ containers, specFlagged c = false)
  ∧ ((dbProbe dcs).status = CStatus.warn ∨ (dbProbe dcs).status = CStatus.ok)
  ∧ ((dbProbe dcs).status = CStatus.warn
      ↔ ∃ c ∈ dcs.map toPortInfo, specFlagged c = true) := by
  refine ⟨?_, ?_, allSafe_iff containers, ?_, ?_⟩
  · simp [checkDatabasePorts, dbLoop_eq]
  · intro c
    simp [specFlagged, List.any_eq_true, exposedPortB]
  · simp only [dbProbe]
    split
    · exact Or.inl rfl
    · exact Or.inr rfl
  · have hiff := allSafe_iff (dcs.map toPortInfo)
    simp only [dbProbe]
    split
    · rename_i h
      have hfalse : (checkDatabasePorts (dcs.map toPortInfo)).allSafe = false := by
        revert h; cases (checkDatabasePorts (dcs.map toPortInfo)).allSafe <;> simp
      have hnall : ¬ ∀ c ∈ dcs.map toPortInfo, specFlagged c = false := by
        intro hforall
        rw [← hiff] at hforall
        rw [hforall] at hfalse
        exact Bool.noConfusion hfalse
      push_neg at hnall
      obtain ⟨c, hc, hval⟩ := hnall
      have : specFlagged c = true := by
        revert hval; cases specFlagged c <;> simp
      simp only [true_iff, iff_true]
      exact ⟨c, hc, this⟩
    · rename_i h
      have htrue : (checkDatabasePorts (dcs.map toPortInfo)).allSafe = true := by
        revert h; cases (checkDatabasePorts (dcs.map toPortInfo)).allSafe <;> simp
      constructor
      · intro hcon; exact CStatus.noConfusion hcon
      · rintro ⟨c, hc, hval⟩
        rw [hiff.mp htrue c hc] at hval
        exact Bool.noConfusion hval

theorem checkDatabasePorts_spec_witness :
    (checkDatabasePorts [⟨"mydb", "postgres:15", [⟨"0.0.0.0", 5432, some 5432⟩]⟩]).exposedDatabases
      = ([⟨"mydb", "postgres:15", [⟨"0.0.0.0", 5432, some 5432⟩]⟩].filter specFlagged).map
          specListing :=
  (checkDatabasePorts_spec [⟨"mydb", "postgres:15", [⟨"0.0.0.0", 5432, some 5432⟩]⟩] []).1

/-- C5 counterexample: in envTimeout the port-80 request fails (a timeout,
not a connection refusal), yet the recorded fifth result has status ok,
not fail — so not every probe other than probe 9 converts its own
infrastructure failure into a fail result. -/
theorem doctor_probe5_counterexample :
    (∃ msg, envTimeout.port80 = FetchOutcome.err msg)
  ∧ ((runDoctorChecks envTimeout)[4]?).map Check.status = some CStatus.ok
  ∧ ((runDoctorChecks envTimeout)[4]?).map Check.status ≠ some CStatus.fail :=
  ⟨⟨"Connect Timeout Error", rfl⟩, by decide, by decide⟩

/-- C5 amended: probe 9 is the only probe ever omitted — when its
container listing fails the report has 8 results and no Database ports
line, and when it succeeds the report has 9; probes 1 to 4 and 6 to 8
convert their own infrastructure failures into fail results; probe 5
always records a result, which is fail exactly when its error message
mentions ECONNREFUSED. -/
theorem doctor_omission_spec (env : DoctorEnv) :
    (∀ e : Unit, env.dbList = Except.error e →
      ("Database ports" ∉ (runDoctorChecks env).map Check.name)
      ∧ (runDoctorChecks env).length = 8)
  ∧ (∀ cs, env.dbList = Except.ok cs →
      (runDoctorChecks env).length = 9
      ∧ (runDoctorChecks env)[8]? = some (dbProbe cs))
  ∧ (env.pingOk = false →
      ((runDoctorChecks env)[0]?).map Check.status = some CStatus.fail)
  ∧ (env.networkOk = false →
      ((runDoctorChecks env)[1]?).map Check.status = some CStatus.fail)
  ∧ (∀ e : Unit, env.containersList = Except.error e →
      ((runDoctorChecks env)[2]?).map Check.status = some CStatus.fail)
  ∧ (∀ m, env.apiFetch = FetchOutcome.err m →
      ((runDoctorChecks env)[3]?).map Check.status = some CStatus.fail)
  ∧ (∀ m, env.port80 = FetchOutcome.err m →
      ∃ c, (runDoctorChecks env)[4]? = some c
        ∧ (c.status = CStatus.fail ↔ strIncl m "ECONNREFUSED" = true))
  ∧ (∀ m, env.dashboard = FetchOutcome.err m →
      ((runDoctorChecks env)[5]?).map Check.status = some CStatus.fail)
  ∧ ((env.configTraefikYml = false ∨ env.configMiddlewaresYml = false) →
      ((runDoctorChecks env)[6]?).map Check.status = some CStatus.fail)
  ∧ (∀ e : Unit, env.overviewApi = Except.error e →
      ((runDoctorChecks env)[7]?).map Check.status = some CStatus.fail) := by
  refine ⟨?_, ?_, ?_, ?_, ?_, ?_, ?_, ?_, ?_, ?_⟩
  · intro e h
    cases e
    have hm := doctorNames_eq env
    rw [h] at hm
    refine ⟨?_, by simp [runDoctorChecks, h]⟩
    rw [hm]
    decide
  · intro cs h
    exact ⟨by simp [runDoctorChecks, h], by simp [runDoctorChecks, h]⟩
  · intro h; simp [runDoctorChecks, probe1, h]
  · intro h; simp [runDoctorChecks, probe2, h]
  · intro e h; simp [runDoctorChecks, probe3, h]
  · intro m h; simp [runDoctorChecks, probe4, h]
  · intro m h
    refine ⟨port80Probe (FetchOutcome.err m), by simp [runDoctorChecks, h], ?_⟩
    by_cases hs : strIncl m "ECONNREFUSED" = true <;> simp [port80Probe, hs]
  · intro m h; simp [runDoctorChecks, dashboardProbe, h]
  · intro h; rcases h with h | h <;> simp [runDoctorChecks, probe7, h]
  · intro e h; simp [runDoctorChecks, probe8, h]

theorem doctor_omission_spec_witness :
    ("Database ports" ∉ (runDoctorChecks envDash).map Check.name)
    ∧ (runDoctorChecks envDash).length = 8 :=
  (doctor_omission_spec envDash).1 () rfl

/-- C7 counterexample: in envDash the dashboard responds with an
unsuccessful status 500, and the recorded result is fail with no tip at
all — so not every dashboard fail carries a remediation tip. -/
theorem dashboard_counterexample :
    ((runDoctorChecks envDash)[5]?).map Check.status = some CStatus.fail
  ∧ ((runDoctorChecks envDash)[5]?).map Check.tip = some none :=
  ⟨by decide, by decide⟩

/-- C7 amended: the dashboard probe is ok iff the response is successful or
has status 200; a non-successful response yields fail with the status code
as detail and no tip; a thrown request error yields fail with the
check-configuration tip; and the sixth entry of every report is this probe
applied to the dashboard outcome. -/
theorem dashboard_spec :
    (∀ r : HttpResp, ((dashboardProbe (FetchOutcome.resp r)).status = CStatus.ok
      ↔ (r.ok = true ∨ r.status = 200)))
  ∧ (∀ r : HttpResp, r.ok = false → r.status ≠ 200 →
      dashboardProbe (FetchOutcome.resp r)
        = ⟨"Dashboard (traefik.localhost)", CStatus.fail,
           some ("HTTP " ++ toString r.status), none⟩)
  ∧ (∀ msg, dashboardProbe (FetchOutcome.err msg)
      = ⟨"Dashboard (traefik.localhost)", CStatus.fail, none,
         some "Dashboard not accessible - check Traefik config"⟩)
  ∧ (∀ env : DoctorEnv, (runDoctorChecks env)[5]? = some (dashboardProbe env.dashboard)) := by
  refine ⟨?_, ?_, fun msg => rfl, fun env => rfl⟩
  · intro r
    by_cases h : (r.ok || r.status == 200) = true
    · have h2 : r.ok = true ∨ r.status = 200 := by simpa using h
      simp [dashboardProbe, h, h2]
    · have h2 : ¬ (r.ok = true ∨ r.status = 200) := by simpa using h
      simp [dashboardProbe, h, h2]
  · intro r h1 h2
    have hb : (r.ok || r.status == 200) = false := by simp [h1, h2]
    simp [dashboardProbe, hb]

theorem dashboard_spec_witness :
    dashboardProbe (FetchOutcome.resp ⟨false, 500⟩)
      = ⟨"Dashboard (traefik.localhost)", CStatus.fail, some ("HTTP " ++ toString 500), none⟩ :=
  dashboard_spec.2.1 ⟨false, 500⟩ rfl (by decide)

/-- C9 counterexample: with a parsed document binding the middleware key m
to the YAML null value (the real parser yields null for a key written with
no value), a middleware named m already exists under http.middlewares, yet
addMiddlewareToConfig succeeds and overwrites it instead of returning
success false. -/
theorem addMiddleware_counterexample :
    (∃ d, parseNullMw "http:\n  middlewares:\n    m:\n" = ParseOutcome.pdoc d
        ∧ (mwsOf d).lookup "m" = some Yv.nullv)
  ∧ (addMiddlewareToConfig "http:\n  middlewares:\n    m:\n" "m" "headers" "cfg"
       parseNullMw stubStringify stubEntryStringify).success = true :=
  ⟨⟨_, rfl, by decide⟩, by decide⟩

/-- C9 amended: the editor is atomic on error: a parse failure or an
existing truthy (non-null) entry of the requested name yields success
false with an error message and nothing is written; a read failure writes
nothing; and on success the written content is the serialization of the
parsed document with the single entry name to type-config set under
http.middlewares — appended when the name was absent, with the remaining
document carried through unchanged. -/
theorem addMiddleware_atomic (env : AddMwEnv) (name mtype config : String) :
    ((∃ e, env.readResult = Except.error e) →
      (handleAddMiddleware env name mtype config).2 = [])
  ∧ (∀ content, env.readResult = Except.ok content →
      env.yamlParse content = ParseOutcome.perror →
      (addMiddlewareToConfig content name mtype config
          env.yamlParse env.yamlStringify env.yamlStringifyEntry)
        = ⟨false, none, some "Could not parse middlewares.yml", none⟩
      ∧ (handleAddMiddleware env name mtype config).2 = [])
  ∧ (∀ content d v, env.readResult = Except.ok content →
      env.yamlParse content = ParseOutcome.pdoc d →
      (mwsOf d).lookup name = some v → yvTruthy v = true →
      (addMiddlewareToConfig content name mtype config
          env.yamlParse env.yamlStringify env.yamlStringifyEntry)
        = ⟨false, none, some ("Middleware " ++ squote ++ name ++ squote
            ++ " already exists. Remove it first or use a different name."), none⟩
      ∧ (handleAddMiddleware env name mtype config).2 = [])
  ∧ (∀ content d, env.readResult = Except.ok content →
      env.yamlParse content = ParseOutcome.pdoc d →
      (mwsOf d).lookup name = none → env.writeOk = true →
      (handleAddMiddleware env name mtype config).2
        = [env.yamlStringify ⟨some ⟨some ((mwsOf d) ++ [(name, Yv.entry mtype config)]),
            (d.http.getD emptyHttpSec).restH⟩, d.restD⟩])
  ∧ (∀ content, env.readResult = Except.ok content →
      env.yamlParse content = ParseOutcome.pnull → env.writeOk = true →
      (handleAddMiddleware env name mtype config).2
        = [env.yamlStringify ⟨some ⟨some [(name, Yv.entry mtype config)], []⟩, []⟩]) := by
  refine ⟨?_, ?_, ?_, ?_, ?_⟩
  · rintro ⟨e, he⟩
    simp [handleAddMiddleware, he]
  · intro content hr hp
    constructor
    · simp [addMiddlewareToConfig, hp]
    · simp [handleAddMiddleware, hr, addMiddlewareToConfig, hp]
  · intro content d v hr hp hl ht
    rw [mwsOf] at hl
    constructor
    · simp [addMiddlewareToConfig, hp, hl, ht]
    · simp [handleAddMiddleware, hr, addMiddlewareToConfig, hp, hl, ht]
  · intro content d hr hp hl hw
    rw [mwsOf] at hl
    have hset := setKey_append_of_lookup_none _ name (Yv.entry mtype config) hl
    simp [handleAddMiddleware, hr, addMiddlewareToConfig, hp, hl, hw, hset, mwsOf]
  · intro content hr hp hw
    simp [handleAddMiddleware, hr, addMiddlewareToConfig, hp, hw, emptyYamlDoc,
      emptyHttpSec, setKey]

theorem addMiddleware_atomic_witness :
    (handleAddMiddleware envAddMw "secure-headers" "headers" "cfg").2
      = [envAddMw.yamlStringify ⟨some ⟨some [("secure-headers", Yv.entry "headers" "cfg")], []⟩, []⟩] :=
  (addMiddleware_atomic envAddMw "secure-headers" "headers" "cfg").2.2.2.2 "" rfl rfl rfl

/-- C10: adding CORS origins is duplicate-free and idempotent: the result
keeps a duplicate-free list duplicate-free, contains exactly the old
origins plus the requested ones, appends only origins not already present,
a second identical add call returns the same list with no changes, and
removing an absent origin changes nothing and records no change. -/
theorem updateCorsOrigins_spec (origins addList : List String) (rem : String)
    (hnd : origins.Nodup) (hrem : rem ∉ origins) :
    (updateCorsOrigins origins (some addList) none).origins.Nodup
  ∧ (∀ x, x ∈ (updateCorsOrigins origins (some addList) none).origins
      ↔ (x ∈ origins ∨ x ∈ addList))
  ∧ (∃ t, (updateCorsOrigins origins (some addList) none).origins = origins ++ t
      ∧ ∀ x ∈ t, x ∈ addList ∧ x ∉ origins)
  ∧ (updateCorsOrigins ((updateCorsOrigins origins (some addList) none).origins)
       (some addList) none
     = ⟨(updateCorsOrigins origins (some addList) none).origins, []⟩)
  ∧ updateCorsOrigins origins none (some [rem]) = ⟨origins, []⟩ := by
  have hu : ∀ os : List String, updateCorsOrigins os (some addList) none
      = ⟨(corsAddLoop (os, []) addList).1, (corsAddLoop (os, []) addList).2⟩ :=
    fun os => rfl
  refine ⟨?_, ?_, ?_, ?_, ?_⟩
  · rw [hu]; exact corsAddLoop_nodup addList origins [] hnd
  · intro x; rw [hu]; exact corsAddLoop_mem_iff addList origins [] x
  · rw [hu]; exact corsAddLoop_shape addList origins []
  · have hsub : ∀ o ∈ addList, o ∈ (updateCorsOrigins origins (some addList) none).origins := by
      intro o ho
      rw [hu]
      exact (corsAddLoop_mem_iff addList origins [] o).mpr (Or.inr ho)
    rw [hu ((updateCorsOrigins origins (some addList) none).origins)]
    rw [corsAddLoop_fix addList _ [] hsub]
  · have hc : origins.contains rem = false := by
      have : ¬ origins.contains rem = true := fun hh => hrem (by simpa using hh)
      revert this; cases origins.contains rem <;> simp
    simp [updateCorsOrigins, corsRemoveLoop, hc, hrem]

theorem updateCorsOrigins_spec_witness :
    updateCorsOrigins ["http://localhost:3000"] none (some ["http://x.localhost"])
      = ⟨["http://localhost:3000"], []⟩ :=
  (updateCorsOrigins_spec ["http://localhost:3000"] ["http://a.localhost"] "http://x.localhost"
    (by decide) (by decide)).2.2.2.2
